import Mathlib

/-!
Shallow embedding of yuzu's OpenGL rasterizer cache header
(`src/video_core/renderer_opengl/gl_rasterizer_cache.h`) and proofs of the
specified properties.

Machine integers are modelled as `Nat` with explicit `% 2^32` / `% 2^64`
where C++ unsigned overflow can occur.  Fatal conditions (failed `ASSERT`,
`UNREACHABLE`, division by zero) are modelled with `Option`: `none` means the
code faults instead of returning a value.
-/

namespace GlRasterizerCache

/-- `SurfaceParams::PixelFormat` is a C++ enum class; it is modelled by its
underlying numeric value (`ABGR8 = 0` … `ASTC_2D_4X4 = 11`, `Max = 12`,
`Invalid = 255`). -/
abbrev PixelFormat := Nat

namespace PixelFormat

def ABGR8 : PixelFormat := 0
def B5G6R5 : PixelFormat := 1
def A2B10G10R10 : PixelFormat := 2
def A1B5G5R5 : PixelFormat := 3
def R8 : PixelFormat := 4
def RGBA16F : PixelFormat := 5
def R11FG11FB10F : PixelFormat := 6
def DXT1 : PixelFormat := 7
def DXT23 : PixelFormat := 8
def DXT45 : PixelFormat := 9
def DXN1 : PixelFormat := 10
def ASTC_2D_4X4 : PixelFormat := 11
def Max : PixelFormat := 12
def Invalid : PixelFormat := 255

end PixelFormat

/-- `SurfaceParams::MaxPixelFormat = static_cast<size_t>(PixelFormat::Max)`. -/
def MaxPixelFormat : Nat := 12

/-- `SurfaceParams::SurfaceType`. -/
inductive SurfaceType where
  | ColorTexture
  | Depth
  | DepthStencil
  | Fill
  | Invalid
deriving DecidableEq, Repr

/-- The `compression_factor_table` array of `GetCompressionFactor`. -/
def compression_factor_table : List Nat :=
  [1, 1, 1, 1, 1, 1, 1, 4, 4, 4, 4, 4]

/-- The `bpp_table` array of `GetFormatBpp`. -/
def bpp_table : List Nat :=
  [32, 16, 32, 16, 8, 64, 32, 64, 128, 128, 64, 32]

/-- `SurfaceParams::GetCompressionFactor`: `0` for `PixelFormat::Invalid`,
otherwise a table lookup guarded by `ASSERT(format < table.size())`
(a failed assert is `none`). -/
def GetCompressionFactor (format : PixelFormat) : Option Nat :=
  if format = PixelFormat.Invalid then
    some 0
  else if h : format < compression_factor_table.length then
    some (compression_factor_table.get ⟨format, h⟩)
  else
    none

/-- `SurfaceParams::GetFormatBpp`: `0` for `PixelFormat::Invalid`, otherwise a
table lookup guarded by `ASSERT(format < table.size())`. -/
def GetFormatBpp (format : PixelFormat) : Option Nat :=
  if format = PixelFormat.Invalid then
    some 0
  else if h : format < bpp_table.length then
    some (bpp_table.get ⟨format, h⟩)
  else
    none

/-- `SurfaceParams::GetFormatType`: every value below `MaxPixelFormat` is a
color texture; anything else hits `ASSERT(false)` before the
`return SurfaceType::Invalid` line. -/
def GetFormatType (pixel_format : PixelFormat) : Option SurfaceType :=
  if pixel_format < MaxPixelFormat then
    some SurfaceType.ColorTexture
  else
    none

/-- `CachedSurface::GetGLBytesPerPixel`: `0` for `PixelFormat::Invalid`,
otherwise `GetFormatBpp(format) / CHAR_BIT`. -/
def GetGLBytesPerPixel (format : PixelFormat) : Option Nat :=
  if format = PixelFormat.Invalid then
    some 0
  else
    (GetFormatBpp format).map (· / 8)

/-- `Tegra::Texture::TextureFormat` (declared in the out-of-scope
`video_core/textures/texture.h`).  The constructors named in the switch of
`PixelFormatFromTextureFormat` are listed; `unsupported n` stands for any
other enumerator, with `n` its numeric value. -/
inductive TextureFormat where
  | A8R8G8B8
  | B5G6R5
  | A2B10G10R10
  | A1B5G5R5
  | R8
  | R16_G16_B16_A16
  | BF10GF11RF11
  | DXT1
  | DXT23
  | DXT45
  | DXN1
  | ASTC_2D_4X4
  | unsupported (n : Nat)
deriving DecidableEq, Repr

/-- A guest texture format inside the subset handled by
`PixelFormatFromTextureFormat` (everything except the default branch). -/
def TextureFormat.supported : TextureFormat → Prop
  | .unsupported _ => False
  | _ => True

instance (tf : TextureFormat) : Decidable tf.supported := by
  cases tf <;> simp [TextureFormat.supported] <;> infer_instance

/-- `Tegra::RenderTargetFormat` (declared in the out-of-scope
`video_core/gpu.h`); constructors named in `PixelFormatFromRenderTargetFormat`,
plus `unsupported n` for any other enumerator. -/
inductive RenderTargetFormat where
  | RGBA8_UNORM
  | RGBA8_SRGB
  | RGB10_A2_UNORM
  | RGBA16_FLOAT
  | R11G11B10_FLOAT
  | unsupported (n : Nat)
deriving DecidableEq, Repr

/-- A render-target format inside the subset handled by
`PixelFormatFromRenderTargetFormat`. -/
def RenderTargetFormat.supported : RenderTargetFormat → Prop
  | .unsupported _ => False
  | _ => True

instance (rt : RenderTargetFormat) : Decidable rt.supported := by
  cases rt <;> simp [RenderTargetFormat.supported] <;> infer_instance

/-- `SurfaceParams::PixelFormatFromRenderTargetFormat`: switch mapping the
supported render-target formats; the default branch logs the format and hits
`UNREACHABLE()` (modelled as `none`). -/
def PixelFormatFromRenderTargetFormat : RenderTargetFormat → Option PixelFormat
  | .RGBA8_UNORM => some PixelFormat.ABGR8
  | .RGBA8_SRGB => some PixelFormat.ABGR8
  | .RGB10_A2_UNORM => some PixelFormat.A2B10G10R10
  | .RGBA16_FLOAT => some PixelFormat.RGBA16F
  | .R11G11B10_FLOAT => some PixelFormat.R11FG11FB10F
  | .unsupported _ => none

/-- `SurfaceParams::PixelFormatFromTextureFormat`: switch mapping the
supported guest texture formats; the default branch logs the format and hits
`UNREACHABLE()` (modelled as `none`). -/
def PixelFormatFromTextureFormat : TextureFormat → Option PixelFormat
  | .A8R8G8B8 => some PixelFormat.ABGR8
  | .B5G6R5 => some PixelFormat.B5G6R5
  | .A2B10G10R10 => some PixelFormat.A2B10G10R10
  | .A1B5G5R5 => some PixelFormat.A1B5G5R5
  | .R8 => some PixelFormat.R8
  | .R16_G16_B16_A16 => some PixelFormat.RGBA16F
  | .BF10GF11RF11 => some PixelFormat.R11FG11FB10F
  | .DXT1 => some PixelFormat.DXT1
  | .DXT23 => some PixelFormat.DXT23
  | .DXT45 => some PixelFormat.DXT45
  | .DXN1 => some PixelFormat.DXN1
  | .ASTC_2D_4X4 => some PixelFormat.ASTC_2D_4X4
  | .unsupported _ => none

/-- `SurfaceParams::TextureFormatFromPixelFormat`: the reverse switch; the
default branch hits `UNREACHABLE()` (modelled as `none`). -/
def TextureFormatFromPixelFormat (format : PixelFormat) : Option TextureFormat :=
  if format = PixelFormat.ABGR8 then some .A8R8G8B8
  else if format = PixelFormat.B5G6R5 then some .B5G6R5
  else if format = PixelFormat.A2B10G10R10 then some .A2B10G10R10
  else if format = PixelFormat.A1B5G5R5 then some .A1B5G5R5
  else if format = PixelFormat.R8 then some .R8
  else if format = PixelFormat.RGBA16F then some .R16_G16_B16_A16
  else if format = PixelFormat.R11FG11FB10F then some .BF10GF11RF11
  else if format = PixelFormat.DXT1 then some .DXT1
  else if format = PixelFormat.DXT23 then some .DXT23
  else if format = PixelFormat.DXT45 then some .DXT45
  else if format = PixelFormat.DXN1 then some .DXN1
  else if format = PixelFormat.ASTC_2D_4X4 then some .ASTC_2D_4X4
  else none

/-- `SurfaceParams::ComponentType`, by underlying value. -/
abbrev ComponentType := Nat

/-- The `SurfaceParams` struct's data fields.  C++ types: `addr` is a `u64`
GPU virtual address, `width`/`height`/`block_height` are `u32`,
`size_in_bytes` is `size_t`. -/
structure SurfaceParams where
  addr : Nat
  is_tiled : Bool
  block_height : Nat
  pixel_format : PixelFormat
  component_type : ComponentType
  type : SurfaceType
  width : Nat
  height : Nat
  unaligned_height : Nat
  size_in_bytes : Nat
deriving DecidableEq, Repr

/-- `SurfaceParams::SizeInBytes`:
`(width / compression_factor) * (height / compression_factor) * bpp / CHAR_BIT`
in `u32` arithmetic, after `ASSERT(width % compression_factor == 0)` and
`ASSERT(height % compression_factor == 0)`.  A failed assert — or the
undefined `% 0` when the compression factor is zero — is `none`. -/
def SizeInBytes (p : SurfaceParams) : Option Nat :=
  match GetCompressionFactor p.pixel_format, GetFormatBpp p.pixel_format with
  | some cf, some bpp =>
    if cf ≠ 0 ∧ p.width % cf = 0 ∧ p.height % cf = 0 then
      some (p.width / cf * (p.height / cf) % 2 ^ 32 * bpp % 2 ^ 32 / 8)
    else
      none
  | _, _ => none

/-- `SurfaceParams::IsOverlappingRegion`:
`addr <= (region_addr + region_size) && region_addr <= (addr + size_in_bytes)`,
the sums taken in `u64` arithmetic. -/
def IsOverlappingRegion (p : SurfaceParams) (region_addr region_size : Nat) : Bool :=
  decide (p.addr ≤ (region_addr + region_size) % 2 ^ 64) &&
    decide (region_addr ≤ (p.addr + p.size_in_bytes) % 2 ^ 64)

/-! ### Page-coherence map

`RasterizerCacheOpenGL::UpdatePagesCachedCount`, `RegisterSurface` and
`UnregisterSurface` are only declared in the header; their bodies live outside
`src/`, so they are modelled from the spec below. -/

/-- Modelled from the spec: guest pages are fixed-size; the concrete page size
is not fixed by the spec, only "page-granularity". -/
def PAGE_SIZE : Nat := 4096

/-- Whether the byte range `[addr, addr + size)` touches guest page `page`,
i.e. intersects `[page * PAGE_SIZE, (page + 1) * PAGE_SIZE)`. -/
def PageTouched (addr size page : Nat) : Bool :=
  decide (addr < (page + 1) * PAGE_SIZE) && decide (page * PAGE_SIZE < addr + size)

/-- Modelled from the spec: `UpdatePagesCachedCount(addr, size, delta)` applies
`delta` to every page-granularity interval in `[addr, addr+size)` within the
Page-Coherence Map.  The map is a total function from page index to count;
a page holding count `0` is "absent" (the spec treats absent and
present-with-zero identically). -/
def UpdatePagesCachedCount (addr size : Nat) (delta : Int) (m : Nat → Int) :
    Nat → Int :=
  fun page => if PageTouched addr size page then m page + delta else m page

/-- The registered-surface list plus the Page-Coherence Map of
`RasterizerCacheOpenGL` (the identity-key table is modelled separately for the
lookup claims). -/
structure CoherenceState where
  surfaces : List SurfaceParams
  cached_pages : Nat → Int

def CoherenceState.init : CoherenceState :=
  ⟨[], fun _ => 0⟩

/-- Modelled from the spec: `RegisterSurface` inserts the surface and adds `+1`
across the surface's page range. -/
def RegisterSurface (s : SurfaceParams) (st : CoherenceState) : CoherenceState :=
  ⟨s :: st.surfaces, UpdatePagesCachedCount s.addr s.size_in_bytes 1 st.cached_pages⟩

/-- Removes the first occurrence of `s`, or `none` when `s` is not present. -/
def removeFirst : List SurfaceParams → SurfaceParams → Option (List SurfaceParams)
  | [], _ => none
  | x :: xs, s => if x = s then some xs else (removeFirst xs s).map (x :: ·)

/-- Modelled from the spec: `UnregisterSurface` removes the surface and applies
`-1` across its page range; unregistering a surface that is not registered
(double-unregister) is a programming error, modelled as `none`. -/
def UnregisterSurface (s : SurfaceParams) (st : CoherenceState) :
    Option CoherenceState :=
  (removeFirst st.surfaces s).map fun rest =>
    ⟨rest, UpdatePagesCachedCount s.addr s.size_in_bytes (-1) st.cached_pages⟩

/-- One cache-mutation step: the only mutators of the surface list and the
Page-Coherence Map. -/
inductive CacheOp where
  | reg (s : SurfaceParams)
  | unreg (s : SurfaceParams)

def applyOp (st : CoherenceState) : CacheOp → Option CoherenceState
  | .reg s => some (RegisterSurface s st)
  | .unreg s => UnregisterSurface s st

/-- Runs a sequence of register/unregister calls from the empty cache;
`none` when some unregister call was a programming error. -/
def runOps (ops : List CacheOp) : Option CoherenceState :=
  ops.foldlM applyOp CoherenceState.init

/-- Number of currently registered surfaces whose guest byte range covers the
given page. -/
def coveringCount (l : List SurfaceParams) (page : Nat) : Nat :=
  (l.filter fun s => PageTouched s.addr s.size_in_bytes page).length

/-! ### Surface lookup (GetSurface)

`RasterizerCacheOpenGL::GetSurface` is only declared in the header; it is
modelled from the spec: build a Surface Identity Key (field-wise equality over
the descriptor); on hit return the existing surface unchanged with no re-load;
on miss construct a fresh Cached Surface, load it from guest memory and
register it. -/

/-- The key→surface table with surfaces named by identity (a `Nat` id standing
for the `std::shared_ptr<CachedSurface>` object identity), the fresh-identity
counter, and a count of guest-memory loads performed. -/
structure LookupState where
  table : List (SurfaceParams × Nat)
  next_id : Nat
  loads : Nat
deriving DecidableEq, Repr

/-- Key lookup: field-wise descriptor equality, as the Surface Identity Key
demands. -/
def findSurface : List (SurfaceParams × Nat) → SurfaceParams → Option Nat
  | [], _ => none
  | (k, s) :: rest, p => if k = p then some s else findSurface rest p

/-- Modelled from the spec: `GetSurface(params)` returns the existing surface
on hit (state untouched, no load); on miss it constructs a fresh surface
(`next_id`), performs one guest-memory load, and registers the new key. -/
def GetSurface (p : SurfaceParams) (st : LookupState) : Nat × LookupState :=
  match findSurface st.table p with
  | some s => (s, st)
  | none =>
    (st.next_id, ⟨(p, st.next_id) :: st.table, st.next_id + 1, st.loads + 1⟩)

/-! ### Guest-memory transfers (LoadGLBuffer / FlushGLBuffer)

`CachedSurface::LoadGLBuffer` and `CachedSurface::FlushGLBuffer` are only
declared in the header; they are modelled from the spec: a byte-for-byte copy
between the guest range `[CpuAddr, CpuAddr + SizeInBytes)` and the staging
buffer, honoring the tiling layout.  The de-tiling map itself is a pure
function of the descriptor supplied by an excluded collaborator, so it enters
the model as an arbitrary function `σ` from staging-buffer index to byte
offset; a linear surface uses the identity offset. -/

/-- Guest memory: a byte at every guest CPU address. -/
abbrev GuestMemory := Nat → Nat

/-- Byte offset inside the surface's guest range for staging-buffer index `i`:
the de-tiling map `σ` when tiled, the identity when linear. -/
def LayoutOffset (p : SurfaceParams) (σ : Nat → Nat) (i : Nat) : Nat :=
  if p.is_tiled then σ i else i

/-- Modelled from the spec: `LoadGLBuffer` fills the staging buffer from the
guest range starting at the resolved CPU address `cpu_addr`, byte `i` of the
buffer coming from offset `LayoutOffset p σ i`. -/
def LoadGLBuffer (p : SurfaceParams) (σ : Nat → Nat) (cpu_addr : Nat)
    (mem : GuestMemory) : Nat → Nat :=
  fun i => mem (cpu_addr + LayoutOffset p σ i)

/-- Modelled from the spec: `FlushGLBuffer` writes the `size_in_bytes` staging
bytes back to guest memory through the same layout map. -/
def FlushGLBuffer (p : SurfaceParams) (σ : Nat → Nat) (cpu_addr : Nat)
    (buf : Nat → Nat) (mem : GuestMemory) : GuestMemory :=
  (List.range p.size_in_bytes).foldl
    (fun m i => Function.update m (cpu_addr + LayoutOffset p σ i) (buf i)) mem

/-- The block-compressed members of the pixel-format enumeration. -/
def blockCompressedFormats : List PixelFormat :=
  [PixelFormat.DXT1, PixelFormat.DXT23, PixelFormat.DXT45,
   PixelFormat.DXN1, PixelFormat.ASTC_2D_4X4]

/-- The Page-Coherence invariant: every page's count equals the number of
registered surfaces whose byte range touches that page. -/
def Coherent (st : CoherenceState) : Prop :=
  ∀ page, st.cached_pages page = (coveringCount st.surfaces page : Int)

end GlRasterizerCache

namespace GlRasterizerCache

/-! ## Helper lemmas -/

lemma getCompressionFactor_pos :
    ∀ f : PixelFormat, f < MaxPixelFormat → 0 < (GetCompressionFactor f).getD 0 := by
  decide

lemma getFormatBpp_isSome :
    ∀ f : PixelFormat, f < MaxPixelFormat → (GetFormatBpp f).isSome := by
  decide

lemma coveringCount_cons (s : SurfaceParams) (l : List SurfaceParams) (page : Nat) :
    coveringCount (s :: l) page =
      coveringCount l page +
        (if PageTouched s.addr s.size_in_bytes page then 1 else 0) := by
  simp only [coveringCount, List.filter_cons]
  by_cases h : PageTouched s.addr s.size_in_bytes page <;> simp [h]

lemma removeFirst_coveringCount (s : SurfaceParams) :
    ∀ (l l' : List SurfaceParams), removeFirst l s = some l' → ∀ page,
      coveringCount l page =
        coveringCount l' page +
          (if PageTouched s.addr s.size_in_bytes page then 1 else 0) := by
  intro l
  induction l with
  | nil => intro l' h; simp [removeFirst] at h
  | cons x t ih =>
    intro l' h page
    unfold removeFirst at h
    by_cases hx : x = s
    · rw [if_pos hx] at h
      have ht : t = l' := by injection h
      rw [← ht, ← hx]
      exact coveringCount_cons x t page
    · rw [if_neg hx] at h
      cases hm : removeFirst t s with
      | none => rw [hm] at h; simp at h
      | some t' =>
        rw [hm] at h
        obtain rfl : x :: t' = l' := by
          simpa [Option.map] using h
        rw [coveringCount_cons, coveringCount_cons, ih t' hm page]
        omega

lemma applyOp_coherent {st st' : CoherenceState} {op : CacheOp}
    (hst : Coherent st) (hop : applyOp st op = some st') : Coherent st' := by
  intro page
  cases op with
  | reg s =>
    obtain rfl : RegisterSurface s st = st' := by
      simpa [applyOp] using hop
    show UpdatePagesCachedCount s.addr s.size_in_bytes 1 st.cached_pages page =
      (coveringCount (s :: st.surfaces) page : Int)
    simp only [UpdatePagesCachedCount]
    rw [coveringCount_cons, hst page]
    by_cases h : PageTouched s.addr s.size_in_bytes page
    · rw [if_pos h, if_pos h]
      push_cast
      ring
    · rw [if_neg h, if_neg h]
      simp
  | unreg s =>
    simp only [applyOp, UnregisterSurface, Option.map_eq_some'] at hop
    obtain ⟨rest, hrem, rfl⟩ := hop
    have hc := removeFirst_coveringCount s st.surfaces rest hrem page
    show UpdatePagesCachedCount s.addr s.size_in_bytes (-1) st.cached_pages page =
      (coveringCount rest page : Int)
    simp only [UpdatePagesCachedCount]
    rw [hst page]
    by_cases h : PageTouched s.addr s.size_in_bytes page
    · rw [if_pos h] at hc ⊢
      rw [hc]
      push_cast
      omega
    · rw [if_neg h] at hc ⊢
      rw [hc]
      simp

lemma foldlM_coherent :
    ∀ (ops : List CacheOp) (st0 st : CoherenceState), Coherent st0 →
      List.foldlM applyOp st0 ops = some st → Coherent st := by
  intro ops
  induction ops with
  | nil =>
    intro st0 st h0 hrun
    obtain rfl : st0 = st := by simpa using hrun
    exact h0
  | cons op t ih =>
    intro st0 st h0 hrun
    rw [List.foldlM_cons] at hrun
    cases happ : applyOp st0 op with
    | none => rw [happ] at hrun; simp at hrun
    | some st1 =>
      rw [happ] at hrun
      exact ih st1 st (applyOp_coherent h0 happ) hrun

lemma getSurface_hit (p : SurfaceParams) (st : LookupState) (s : Nat)
    (h : findSurface st.table p = some s) : GetSurface p st = (s, st) := by
  unfold GetSurface
  rw [h]

lemma foldl_update_id (off buf mem : Nat → Nat) (l : List Nat) :
    ∀ m : Nat → Nat, (∀ a, m a = mem a) → (∀ i, buf i = mem (off i)) →
      ∀ a, (l.foldl (fun acc i => Function.update acc (off i) (buf i)) m) a = mem a := by
  induction l with
  | nil => intro m hm _ a; exact hm a
  | cons i t ih =>
    intro m hm hb a
    simp only [List.foldl_cons]
    refine ih _ (fun b => ?_) hb a
    by_cases hba : b = off i
    · subst hba
      rw [Function.update_same]
      exact hb i
    · rw [Function.update_noteq hba]
      exact hm b

end GlRasterizerCache

namespace GlRasterizerCache

/-! ## Claim theorems -/

/-- C1: for every descriptor with a valid pixel format whose width and height
are each divisible by the format's compression factor (the `u32` size
computation not overflowing), `SizeInBytes` returns
`(width / cf) * (height / cf) * bpp / 8`; a descriptor violating the
divisibility precondition trips the programming-error assertion instead of
returning a value. -/
theorem sizeInBytes_spec :
    (∀ (p : SurfaceParams) (cf bpp : Nat), p.pixel_format < MaxPixelFormat →
      GetCompressionFactor p.pixel_format = some cf →
      GetFormatBpp p.pixel_format = some bpp →
      p.width % cf = 0 → p.height % cf = 0 →
      p.width / cf * (p.height / cf) * bpp < 2 ^ 32 →
      SizeInBytes p = some (p.width / cf * (p.height / cf) * bpp / 8)) ∧
    (∀ (p : SurfaceParams) (cf : Nat), p.pixel_format < MaxPixelFormat →
      GetCompressionFactor p.pixel_format = some cf →
      ¬(p.width % cf = 0 ∧ p.height % cf = 0) →
      SizeInBytes p = none) := by
  constructor
  · intro p cf bpp hf hcf hbpp hw hh hbound
    have hcf0 : 0 < cf := by
      have hp := getCompressionFactor_pos p.pixel_format hf
      rw [hcf] at hp
      simpa using hp
    simp only [SizeInBytes, hcf, hbpp]
    rw [if_pos ⟨by omega, hw, hh⟩]
    rcases Nat.eq_zero_or_pos bpp with hb | hb
    · subst hb
      simp
    · have hle : p.width / cf * (p.height / cf) ≤ p.width / cf * (p.height / cf) * bpp :=
        Nat.le_mul_of_pos_right _ hb
      have h1 : p.width / cf * (p.height / cf) < 2 ^ 32 := lt_of_le_of_lt hle hbound
      rw [Nat.mod_eq_of_lt h1, Nat.mod_eq_of_lt hbound]
  · intro p cf hf hcf hnd
    have hb := getFormatBpp_isSome p.pixel_format hf
    obtain ⟨bpp, hbpp⟩ := Option.isSome_iff_exists.mp hb
    simp only [SizeInBytes, hcf, hbpp]
    rw [if_neg]
    intro hcontra
    exact hnd ⟨hcontra.2.1, hcontra.2.2⟩

/-- Witness for C1: a DXT1 64×32 descriptor yields the formula value, and a
63-wide DXT1 descriptor (63 not divisible by 4) faults. -/
theorem sizeInBytes_spec_witness :
    SizeInBytes ⟨0, false, 0, 7, 0, SurfaceType.ColorTexture, 64, 32, 32, 0⟩ =
      some (64 / 4 * (32 / 4) * 64 / 8) ∧
    SizeInBytes ⟨0, false, 0, 7, 0, SurfaceType.ColorTexture, 63, 32, 32, 0⟩ = none :=
  ⟨sizeInBytes_spec.1 ⟨0, false, 0, 7, 0, SurfaceType.ColorTexture, 64, 32, 32, 0⟩ 4 64
      (by decide) (by decide) (by decide) (by decide) (by decide) (by decide),
   sizeInBytes_spec.2 ⟨0, false, 0, 7, 0, SurfaceType.ColorTexture, 63, 32, 32, 0⟩ 4
      (by decide) (by decide) (by decide)⟩

/-- C2: `IsOverlappingRegion(region_addr, region_size)` is true iff the closed
intervals `[region_addr, region_addr + region_size]` and
`[addr, addr + size_in_bytes]` intersect — boundary touching included — for
all inputs whose endpoint sums stay inside the `u64` range. -/
theorem isOverlappingRegion_iff :
    ∀ (p : SurfaceParams) (region_addr region_size : Nat),
      p.addr + p.size_in_bytes < 2 ^ 64 →
      region_addr + region_size < 2 ^ 64 →
      (IsOverlappingRegion p region_addr region_size = true ↔
        ∃ x, region_addr ≤ x ∧ x ≤ region_addr + region_size ∧
          p.addr ≤ x ∧ x ≤ p.addr + p.size_in_bytes) := by
  intro p a s h1 h2
  unfold IsOverlappingRegion
  rw [Nat.mod_eq_of_lt h2, Nat.mod_eq_of_lt h1]
  simp only [Bool.and_eq_true, decide_eq_true_eq]
  constructor
  · rintro ⟨hA, hB⟩
    rcases le_total p.addr a with h | h
    · exact ⟨a, by omega⟩
    · exact ⟨p.addr, by omega⟩
  · rintro ⟨x, hx1, hx2, hx3, hx4⟩
    exact ⟨by omega, by omega⟩

/-- Witness for C2: a surface spanning `[100, 150]` touches a query region
starting exactly at its end, `[150, 160]`. -/
theorem isOverlappingRegion_iff_witness :
    IsOverlappingRegion ⟨100, false, 0, 0, 0, SurfaceType.ColorTexture, 0, 0, 0, 50⟩
        150 10 = true ↔
      ∃ x, 150 ≤ x ∧ x ≤ 150 + 10 ∧ 100 ≤ x ∧ x ≤ 100 + 50 :=
  isOverlappingRegion_iff ⟨100, false, 0, 0, 0, SurfaceType.ColorTexture, 0, 0, 0, 50⟩
    150 10 (by decide) (by decide)

/-- C3: after any sequence of `RegisterSurface`/`UnregisterSurface` calls
(each unregister naming a currently registered surface), every page's count in
the Page-Coherence Map equals the number of registered surfaces whose guest
byte range covers that page, and no count is ever negative; a zero count is
the map's absent state. -/
theorem pageCoherence_invariant :
    ∀ (ops : List CacheOp) (st : CoherenceState), runOps ops = some st →
      ∀ page, st.cached_pages page = (coveringCount st.surfaces page : Int) ∧
        0 ≤ st.cached_pages page := by
  intro ops st hrun page
  have hinit : Coherent CoherenceState.init := fun _ => rfl
  unfold runOps at hrun
  have h := foldlM_coherent ops CoherenceState.init st hinit hrun
  refine ⟨h page, ?_⟩
  rw [h page]
  exact Int.natCast_nonneg _

/-- Witness for C3: registering one 8 KiB surface at address 4096 makes page 1
carry count 1 — the number of covering surfaces. -/
theorem pageCoherence_invariant_witness :
    (RegisterSurface ⟨4096, false, 0, 0, 0, SurfaceType.ColorTexture, 64, 32, 32, 8192⟩
        CoherenceState.init).cached_pages 1 =
      (coveringCount
        (RegisterSurface ⟨4096, false, 0, 0, 0, SurfaceType.ColorTexture, 64, 32, 32, 8192⟩
          CoherenceState.init).surfaces 1 : Int) ∧
    0 ≤ (RegisterSurface ⟨4096, false, 0, 0, 0, SurfaceType.ColorTexture, 64, 32, 32, 8192⟩
        CoherenceState.init).cached_pages 1 :=
  pageCoherence_invariant
    [CacheOp.reg ⟨4096, false, 0, 0, 0, SurfaceType.ColorTexture, 64, 32, 32, 8192⟩]
    (RegisterSurface ⟨4096, false, 0, 0, 0, SurfaceType.ColorTexture, 64, 32, 32, 8192⟩
      CoherenceState.init)
    rfl 1

/-- C4: calling `GetSurface` twice with field-wise identical descriptors and
no invalidation in between returns the same surface identity the second time
and leaves the whole cache state unchanged — in particular the load counter
and the fresh-surface counter are untouched, so no reload happens and no new
surface is constructed. -/
theorem getSurface_idempotent :
    ∀ (p : SurfaceParams) (st : LookupState),
      GetSurface p (GetSurface p st).2 = GetSurface p st := by
  intro p st
  have key : findSurface (GetSurface p st).2.table p = some (GetSurface p st).1 := by
    unfold GetSurface
    cases h : findSurface st.table p with
    | some s => simpa using h
    | none => simp [findSurface]
  rw [getSurface_hit p (GetSurface p st).2 (GetSurface p st).1 key]

/-- C5: loading the staging buffer from guest memory and immediately flushing
it back — with no modification in between — restores every guest byte
(in particular the bytes of `[cpu_addr, cpu_addr + size_in_bytes)`), for every
layout map `σ` (tiled) and for the identity layout (linear). -/
theorem loadFlush_round_trip :
    ∀ (p : SurfaceParams) (σ : Nat → Nat) (cpu_addr : Nat) (mem : GuestMemory),
      FlushGLBuffer p σ cpu_addr (LoadGLBuffer p σ cpu_addr mem) mem = mem := by
  intro p σ c mem
  funext a
  exact foldl_update_id (fun i => c + LayoutOffset p σ i)
    (LoadGLBuffer p σ c mem) mem (List.range p.size_in_bytes) mem
    (fun _ => rfl) (fun _ => rfl) a

/-- C6: the two guest-format derivation switches return a mapped host pixel
format for every guest format of the supported subset, and fault
(log + `UNREACHABLE`, modelled `none`) on every guest format outside it —
never a fallback value. -/
theorem formatDerivation_total_or_fatal :
    (∀ tf : TextureFormat, tf.supported → (PixelFormatFromTextureFormat tf).isSome) ∧
    (∀ n : Nat, PixelFormatFromTextureFormat (TextureFormat.unsupported n) = none) ∧
    (∀ rt : RenderTargetFormat, rt.supported →
      (PixelFormatFromRenderTargetFormat rt).isSome) ∧
    (∀ n : Nat, PixelFormatFromRenderTargetFormat (RenderTargetFormat.unsupported n) =
      none) := by
  refine ⟨?_, fun _ => rfl, ?_, fun _ => rfl⟩
  · intro tf h
    cases tf <;> first | rfl | simp [TextureFormat.supported] at h
  · intro rt h
    cases rt <;> first | rfl | simp [RenderTargetFormat.supported] at h

/-- Witness for C6 at `DXT1` (texture path) and `RGBA16_FLOAT` (render-target
path). -/
theorem formatDerivation_witness :
    (PixelFormatFromTextureFormat TextureFormat.DXT1).isSome ∧
    (PixelFormatFromRenderTargetFormat RenderTargetFormat.RGBA16_FLOAT).isSome :=
  ⟨formatDerivation_total_or_fatal.1 TextureFormat.DXT1 True.intro,
   formatDerivation_total_or_fatal.2.2.1 RenderTargetFormat.RGBA16_FLOAT True.intro⟩

/-- C7: the bits-per-pixel and compression-factor tables are total over the
enumerated formats below `PixelFormat::Max`; the block-compressed formats
(DXT1, DXT23, DXT45, DXN1, ASTC_2D_4X4) report compression factor 4 and every
other format reports 1. -/
theorem formatTables_total :
    ∀ f : PixelFormat, f < MaxPixelFormat →
      ((GetCompressionFactor f).isSome ∧ (GetFormatBpp f).isSome) ∧
      GetCompressionFactor f =
        some (if f ∈ blockCompressedFormats then 4 else 1) := by
  decide

/-- Witness for C7 at `DXT1`. -/
theorem formatTables_total_witness :
    ((GetCompressionFactor PixelFormat.DXT1).isSome ∧
      (GetFormatBpp PixelFormat.DXT1).isSome) ∧
    GetCompressionFactor PixelFormat.DXT1 =
      some (if PixelFormat.DXT1 ∈ blockCompressedFormats then 4 else 1) :=
  formatTables_total PixelFormat.DXT1 (by decide)

/-- C8: `TextureFormatFromPixelFormat` and `PixelFormatFromTextureFormat` are
mutually inverse bijections between the supported guest texture formats and
the valid host pixel formats. -/
theorem formatMaps_inverse :
    (∀ tf : TextureFormat, tf.supported →
      (PixelFormatFromTextureFormat tf).bind TextureFormatFromPixelFormat = some tf) ∧
    (∀ p : PixelFormat, p < MaxPixelFormat →
      (TextureFormatFromPixelFormat p).bind PixelFormatFromTextureFormat = some p) := by
  constructor
  · intro tf h
    cases tf <;> first | rfl | simp [TextureFormat.supported] at h
  · decide

/-- Witness for C8 at `ASTC_2D_4X4` and `R8`. -/
theorem formatMaps_inverse_witness :
    (PixelFormatFromTextureFormat TextureFormat.ASTC_2D_4X4).bind
        TextureFormatFromPixelFormat = some TextureFormat.ASTC_2D_4X4 ∧
    (TextureFormatFromPixelFormat PixelFormat.R8).bind PixelFormatFromTextureFormat =
      some PixelFormat.R8 :=
  ⟨formatMaps_inverse.1 TextureFormat.ASTC_2D_4X4 True.intro,
   formatMaps_inverse.2 PixelFormat.R8 (by decide)⟩

/-- C9: every pixel format strictly below `PixelFormat::Max` is classified
`SurfaceType::ColorTexture` (never Depth, DepthStencil or Fill), and every
value at or above `Max` hits the assertion before the
`return SurfaceType::Invalid` line. -/
theorem getFormatType_spec :
    ∀ f : PixelFormat,
      (f < MaxPixelFormat → GetFormatType f = some SurfaceType.ColorTexture) ∧
      (MaxPixelFormat ≤ f → GetFormatType f = none) := by
  intro f
  constructor
  · intro h
    unfold GetFormatType
    rw [if_pos h]
  · intro h
    unfold GetFormatType
    rw [if_neg (Nat.not_lt.mpr h)]

/-- Witness for C9 at `ABGR8` (below `Max`) and 255 (`Invalid`, above `Max`). -/
theorem getFormatType_spec_witness :
    GetFormatType PixelFormat.ABGR8 = some SurfaceType.ColorTexture ∧
    GetFormatType PixelFormat.Invalid = none :=
  ⟨(getFormatType_spec PixelFormat.ABGR8).1 (by decide),
   (getFormatType_spec PixelFormat.Invalid).2 (by decide)⟩

/-- C10: queried with `PixelFormat::Invalid`, the format queries do not fault
but return 0. -/
theorem invalidFormat_queries_zero :
    GetCompressionFactor PixelFormat.Invalid = some 0 ∧
    GetFormatBpp PixelFormat.Invalid = some 0 ∧
    GetGLBytesPerPixel PixelFormat.Invalid = some 0 :=
  ⟨rfl, rfl, rfl⟩

end GlRasterizerCache
